import Mathlib

/-!
Verification of the Low-Level-Design teaching repository against its
specification.  The TypeScript classes relevant to the claims are shallowly
embedded as pure Lean functions: a mutable field becomes explicit state
passing, a thrown exception becomes an `Except`/`Option` error value, and a
`console.log` becomes a returned output string.
-/

/-! ## BankAccount (OOPS-Fundamental/encapsulation/example.ts, lines 4-21) -/

/-- Errors thrown by the BankAccount methods, one per `throw` site. -/
inductive BankError where
  | depositNotPositive
  | withdrawalNotPositive
  | insufficientFunds
deriving DecidableEq, Repr

namespace BankAccount

/-- Embedding of `deposit(amount)`: the method first validates and throws on
a non-positive amount (leaving `balance` as it was, since the mutation comes
after the check), otherwise adds `amount` to `balance`.  Returns the balance
after the call together with the thrown error, if any. -/
def deposit (balance amount : Int) : Int × Option BankError :=
  if amount ≤ 0 then (balance, some .depositNotPositive)
  else (balance + amount, none)

/-- Embedding of `withdrawal(amount)`: throws on a non-positive amount, then
on `amount > this.balance`, otherwise subtracts.  The balance is unchanged on
either throw because both checks precede the mutation. -/
def withdrawal (balance amount : Int) : Int × Option BankError :=
  if amount ≤ 0 then (balance, some .withdrawalNotPositive)
  else if amount > balance then (balance, some .insufficientFunds)
  else (balance - amount, none)

/-- Embedding of `getBalance()`: read-only access to the private field. -/
def getBalance (balance : Int) : Int := balance

end BankAccount

/-- One public mutating call on a BankAccount. -/
inductive BankOp where
  | deposit (amount : Int)
  | withdrawal (amount : Int)
deriving DecidableEq, Repr

namespace BankAccount

/-- Dispatch one call to the corresponding method. -/
def step (balance : Int) : BankOp → Int × Option BankError
  | .deposit amount => deposit balance amount
  | .withdrawal amount => withdrawal balance amount

/-- Run a finite sequence of calls; a call that throws leaves the balance as
delivered by `step` (which keeps the pre-call balance on a throw). -/
def run (balance : Int) : List BankOp → Int
  | [] => balance
  | op :: ops => run (step balance op).1 ops

theorem step_nonneg (balance : Int) (op : BankOp) (h : 0 ≤ balance) :
    0 ≤ (step balance op).1 := by
  cases op with
  | deposit amount =>
      simp only [step, deposit]
      split <;> simp <;> omega
  | withdrawal amount =>
      simp only [step, withdrawal]
      split
      · simpa
      · split <;> simp <;> omega

theorem run_nonneg (ops : List BankOp) (balance : Int) (h : 0 ≤ balance) :
    0 ≤ run balance ops := by
  induction ops generalizing balance with
  | nil => simpa [run]
  | cons op ops ih => exact ih _ (step_nonneg balance op h)

end BankAccount

/-- C9: starting from a new account (`balance = 0`), after every finite
sequence of `deposit`/`withdrawal` calls `getBalance()` is non-negative, and
every call that throws leaves the balance exactly as it was before the call. -/
theorem bankAccount_invariant :
    (∀ ops : List BankOp, 0 ≤ BankAccount.getBalance (BankAccount.run 0 ops)) ∧
    (∀ (balance : Int) (op : BankOp),
      (BankAccount.step balance op).2.isSome = true →
        (BankAccount.step balance op).1 = balance) := by
  constructor
  · intro ops
    exact BankAccount.run_nonneg ops 0 (le_refl 0)
  · intro balance op h
    cases op with
    | deposit amount =>
        by_cases h1 : amount ≤ 0
        · simp [BankAccount.step, BankAccount.deposit, h1]
        · simp [BankAccount.step, BankAccount.deposit, h1] at h
    | withdrawal amount =>
        by_cases h1 : amount ≤ 0
        · simp [BankAccount.step, BankAccount.withdrawal, h1]
        · by_cases h2 : amount > balance
          · simp [BankAccount.step, BankAccount.withdrawal, h1, h2]
          · simp [BankAccount.step, BankAccount.withdrawal, h1, h2] at h

/-- Witness for C9 at concrete inputs: a three-call run stays non-negative,
and a throwing withdrawal (insufficient funds) leaves the balance unchanged. -/
theorem bankAccount_invariant_witness :
    0 ≤ BankAccount.getBalance
      (BankAccount.run 0 [.deposit 100, .withdrawal 30, .withdrawal 70]) ∧
    (BankAccount.step 50 (.withdrawal 60)).1 = 50 :=
  ⟨bankAccount_invariant.1 _, bankAccount_invariant.2 50 (.withdrawal 60) (by decide)⟩

/-! ## PaymentProcessor (OOPS-Fundamental/encapsulation/example.ts, lines 31-49)

Strings are embedded as `List Char`; the JavaScript `number` amounts are
embedded as `Int` (the code only compares them against zero). -/

/-- Embedding of JavaScript `String.prototype.padStart(targetLength, pad)`
with a one-character pad string: if the receiver is already at least
`targetLength` long it is returned unchanged, otherwise copies of `pad` are
prepended up to `targetLength`. -/
def jsPadStart (s : List Char) (targetLength : Nat) (pad : Char) : List Char :=
  if s.length ≥ targetLength then s
  else List.replicate (targetLength - s.length) pad ++ s

/-- Embedding of JavaScript `String.prototype.slice(-4)`: the last four
characters (the whole string when it is shorter than four). -/
def jsSliceLast4 (s : List Char) : List Char :=
  s.drop (s.length - 4)

structure PaymentProcessor where
  cardNumber : List Char
  amount : Int

namespace PaymentProcessor

/-- Embedding of the private `maskCardNumber()`:
`this.cardNumber.slice(-4).padStart(this.cardNumber.length, '*')`. -/
def maskCardNumber (p : PaymentProcessor) : List Char :=
  jsPadStart (jsSliceLast4 p.cardNumber) p.cardNumber.length '*'

/-- Embedding of `processPayment()`: throws when `this.amount <= 0`,
otherwise logs the amount together with the masked card number. -/
def processPayment (p : PaymentProcessor) : Except String String :=
  if p.amount ≤ 0 then .error "Payment amount must be positive"
  else .ok ("Processing payment of $" ++ toString p.amount
      ++ " for card " ++ String.mk p.maskCardNumber)

theorem maskCardNumber_eq (p : PaymentProcessor) (h : 4 ≤ p.cardNumber.length) :
    p.maskCardNumber =
      List.replicate (p.cardNumber.length - 4) '*'
        ++ p.cardNumber.drop (p.cardNumber.length - 4) := by
  unfold maskCardNumber jsPadStart jsSliceLast4
  have hlen : (p.cardNumber.drop (p.cardNumber.length - 4)).length = 4 := by
    simp [List.length_drop]
    omega
  rw [hlen]
  split
  · have h4 : p.cardNumber.length = 4 := by omega
    simp [h4]
  · rfl

end PaymentProcessor

/-- C10: `processPayment` throws exactly when the stored amount is at most
zero; and for a card number of length at least four, the masked string has
the same length as the card number, ends with its last four characters, and
holds a star in every earlier position. -/
theorem paymentProcessor_spec (p : PaymentProcessor) (h : 4 ≤ p.cardNumber.length) :
    (p.processPayment.isOk = false ↔ p.amount ≤ 0) ∧
    p.maskCardNumber.length = p.cardNumber.length ∧
    p.maskCardNumber.drop (p.cardNumber.length - 4) =
      p.cardNumber.drop (p.cardNumber.length - 4) ∧
    p.maskCardNumber.take (p.cardNumber.length - 4) =
      List.replicate (p.cardNumber.length - 4) '*' := by
  have hm := PaymentProcessor.maskCardNumber_eq p h
  refine ⟨?_, ?_, ?_, ?_⟩
  · unfold PaymentProcessor.processPayment
    split <;> simp_all [Except.isOk, Except.toBool]
  · rw [hm]
    simp only [List.length_append, List.length_replicate, List.length_drop]
    omega
  · rw [hm, List.drop_left' (by simp)]
  · rw [hm, List.take_left' (by simp)]

/-- Witness for C10 at the source's own example input: card number
`1234567812345678` with amount 100. -/
theorem paymentProcessor_spec_witness :
    let p : PaymentProcessor := ⟨"1234567812345678".toList, 100⟩
    (p.processPayment.isOk = false ↔ p.amount ≤ 0) ∧
    p.maskCardNumber.length = p.cardNumber.length ∧
    p.maskCardNumber.drop (p.cardNumber.length - 4) =
      p.cardNumber.drop (p.cardNumber.length - 4) ∧
    p.maskCardNumber.take (p.cardNumber.length - 4) =
      List.replicate (p.cardNumber.length - 4) '*' :=
  paymentProcessor_spec ⟨"1234567812345678".toList, 100⟩ (by decide)

/-! ## Variant catalogs (src/unnamed/part_004, lines 455-494)

The `Status` class builds its closed variant set with a private constructor
and three static instances, so the only constructible variants are the three
statics; the embedding is the corresponding closed inductive type, with the
`code`/`label` constructor arguments as functions. -/

inductive Status where
  | Pending
  | InProgress
  | Completed
deriving DecidableEq, Repr

namespace Status

/-- The `code` field of each static instance. -/
def code : Status → String
  | .Pending => "PENDING"
  | .InProgress => "IN_PROGRESS"
  | .Completed => "COMPLETED"

/-- The `label` field of each static instance. -/
def label : Status → String
  | .Pending => "Waiting to start"
  | .InProgress => "Work in progress"
  | .Completed => "Task completed"

/-- Embedding of `isFinal()`, which is `this == Status.Completed` in the
source: instance identity, which on the closed set of statics is exactly
constructor identity. -/
def isFinal (s : Status) : Bool := s == Status.Completed

/-- Modelled from the spec: `sameAs(other): bool` is defined as code
equality; the source's `Status` class declares no `sameAs` method (it only
compares variants by instance identity), so the spec's definition is used. -/
def sameAs (a b : Status) : Bool := a.code == b.code

/-- The complete set of static instances, in declaration order. -/
def statics : List Status := [.Pending, .InProgress, .Completed]

end Status

/-- Embedding of the string enum `OrderStatus` (part_004, lines 455-461): a
closed set of five members. -/
inductive OrderStatus where
  | PLACED
  | PENDING
  | SHIPPED
  | DELIVERED
  | CANCELLED
deriving DecidableEq, Repr

namespace OrderStatus

/-- The string value of each enum member, which is its unique tag. -/
def code : OrderStatus → String
  | .PLACED => "PLACED"
  | .PENDING => "PENDING"
  | .SHIPPED => "SHIPPED"
  | .DELIVERED => "DELIVERED"
  | .CANCELLED => "CANCELLED"

/-- All enum members in declaration order. -/
def members : List OrderStatus := [.PLACED, .PENDING, .SHIPPED, .DELIVERED, .CANCELLED]

end OrderStatus

/-- An independently constructed variant record: a `code` tag plus attached
metadata (`label`), as in the spec's data model for the Variant Catalog. -/
structure VariantRec where
  code : String
  label : String
deriving DecidableEq, Repr

/-- Modelled from the spec: variant comparison `sameAs(other): bool` is code
equality, never structural equality of the attached metadata. -/
def VariantRec.sameAs (v w : VariantRec) : Bool := v.code == w.code

/-- Error kind raised when two declared variants share a code. -/
structure DuplicateCodeError where
deriving DecidableEq, Repr

/-- A constructed variant catalog. -/
structure Catalog where
  variants : List VariantRec
deriving DecidableEq, Repr

/-- Modelled from the spec: catalog construction fails with
`DuplicateCodeError` if two variants share a code (the source only declares
literal catalogs — the `Status` statics and the `OrderStatus` enum — and has
no construction-time check). -/
def mkCatalog (vs : List VariantRec) : Except DuplicateCodeError Catalog :=
  if (vs.map VariantRec.code).Nodup then .ok ⟨vs⟩ else .error ⟨⟩

/-- C5: variant identity is code equality: `sameAs` holds exactly on equal
codes (which on the closed `Status` catalog coincides with instance
identity), the terminality check `isFinal` agrees with pure code identity,
and two records with identical labels but different codes are never
`sameAs`. -/
theorem variant_identity_is_code_equality :
    (∀ a b : Status, a.sameAs b = true ↔ a.code = b.code) ∧
    (∀ a b : Status, a.sameAs b = true ↔ a = b) ∧
    (∀ s : Status, s.isFinal = true ↔ s.code = "COMPLETED") ∧
    (∀ v w : VariantRec, v.label = w.label → v.code ≠ w.code → v.sameAs w = false) := by
  refine ⟨?_, ?_, ?_, ?_⟩
  · intro a b
    cases a <;> cases b <;> decide
  · intro a b
    cases a <;> cases b <;> decide
  · intro s
    cases s <;> decide
  · intro v w _ h2
    simpa [VariantRec.sameAs] using h2

/-- Witness for C5: two records sharing the label "same label" but carrying
different codes are not `sameAs`. -/
theorem variant_identity_witness :
    VariantRec.sameAs ⟨"CODE_A", "same label"⟩ ⟨"CODE_B", "same label"⟩ = false :=
  variant_identity_is_code_equality.2.2.2
    ⟨"CODE_A", "same label"⟩ ⟨"CODE_B", "same label"⟩ rfl (by decide)

/-- C6: within each of the repository's catalogs no two variants share a
code; constructing a catalog from variants with a duplicated code fails with
`DuplicateCodeError`; and a successfully constructed catalog holds exactly
the declared variants (nothing in the embedding mutates them afterwards). -/
theorem catalog_codes_unique :
    (Status.statics.map Status.code).Nodup ∧
    (OrderStatus.members.map OrderStatus.code).Nodup ∧
    (∀ vs : List VariantRec,
      (∃ e, mkCatalog vs = .error e) ↔ ¬ (vs.map VariantRec.code).Nodup) ∧
    (∀ vs c, mkCatalog vs = .ok c → c.variants = vs) := by
  refine ⟨by decide, by decide, ?_, ?_⟩
  · intro vs
    unfold mkCatalog
    split
    · simp_all
    · simp_all
      exact Exists.intro DuplicateCodeError.mk trivial
  · intro vs c h
    unfold mkCatalog at h
    split at h
    · injection h with h2
      rw [← h2]
    · cases h

/-- Witness for C6: a duplicated code makes construction fail, and a
successful construction keeps the declared variant list. -/
theorem catalog_codes_unique_witness :
    (∃ e, mkCatalog [⟨"DUP", "first"⟩, ⟨"DUP", "second"⟩] = Except.error e) ∧
    Catalog.variants ⟨[⟨"PLACED", "Placed"⟩]⟩ = [⟨"PLACED", "Placed"⟩] :=
  ⟨(catalog_codes_unique.2.2.1 _).mpr (by decide),
   catalog_codes_unique.2.2.2 [⟨"PLACED", "Placed"⟩] ⟨[⟨"PLACED", "Placed"⟩]⟩
     (by
       have hnd : (([⟨"PLACED", "Placed"⟩] : List VariantRec).map VariantRec.code).Nodup := by
         decide
       simp [mkCatalog, hnd])⟩

/-! ## Transition Policy (spec sections 4.2 and 8)

The repository declares variant catalogs but no transition code at all, so
the Transition Policy is modelled from the specification. -/

/-- Error raised on an undeclared transition, carrying the offending pair. -/
structure IllegalTransitionError where
  fromVariant : VariantRec
  toVariant : VariantRec
deriving DecidableEq, Repr

/-- Modelled from the spec: a Transition Policy holds the declared rule set
as directed `(fromCode, toCode)` edges; no transition-policy code exists in
the source (the `OrderStatus` enum declares states but no transitions). -/
structure TransitionPolicy where
  rules : List (String × String)
deriving DecidableEq, Repr

namespace TransitionPolicy

/-- Modelled from the spec: `isLegal(from, to)` looks up the edge
`(from.code, to.code)` in the declared rule set, nothing else. -/
def isLegal (p : TransitionPolicy) (a b : VariantRec) : Bool :=
  decide ((a.code, b.code) ∈ p.rules)

/-- Modelled from the spec: `attempt(current, to)` is an atomic
check-then-set.  The result is the `CurrentState` value after the call
paired with the thrown error, if any: an undeclared edge returns the state
unchanged together with `IllegalTransitionError{from, to}`; a declared edge
returns the state updated to `to` with success. -/
def attempt (p : TransitionPolicy) (current tgt : VariantRec) :
    VariantRec × Option IllegalTransitionError :=
  if p.isLegal current tgt then (tgt, none)
  else (current, some ⟨current, tgt⟩)

end TransitionPolicy

/-- Modelled from the spec (section 8 scenario): the order catalog. -/
def placedV : VariantRec := ⟨"PLACED", "Placed"⟩

/-- Modelled from the spec (section 8 scenario): the shipped variant. -/
def shippedV : VariantRec := ⟨"SHIPPED", "Shipped"⟩

/-- Modelled from the spec (section 8 scenario): the delivered variant. -/
def deliveredV : VariantRec := ⟨"DELIVERED", "Delivered"⟩

/-- Modelled from the spec (section 8 scenario): the cancelled variant. -/
def cancelledV : VariantRec := ⟨"CANCELLED", "Cancelled"⟩

/-- Modelled from the spec (section 8 scenario): the declared rule set
`PLACED→SHIPPED`, `SHIPPED→DELIVERED`, `PLACED→CANCELLED`. -/
def orderPolicy : TransitionPolicy :=
  ⟨[("PLACED", "SHIPPED"), ("SHIPPED", "DELIVERED"), ("PLACED", "CANCELLED")]⟩

/-- C1: an `attempt` whose edge is undeclared fails with
`IllegalTransitionError{from, to}` and leaves the `CurrentState` at the old
variant (atomic check-then-set, no partial mutation); a declared edge
updates the `CurrentState` to the target and succeeds. -/
theorem attempt_atomic_check_then_set (p : TransitionPolicy)
    (current tgt : VariantRec) :
    ((current.code, tgt.code) ∉ p.rules →
      p.attempt current tgt = (current, some ⟨current, tgt⟩)) ∧
    ((current.code, tgt.code) ∈ p.rules →
      p.attempt current tgt = (tgt, none)) := by
  constructor
  · intro h
    simp [TransitionPolicy.attempt, TransitionPolicy.isLegal, h]
  · intro h
    simp [TransitionPolicy.attempt, TransitionPolicy.isLegal, h]

/-- Witness for C1 on the spec's own scenario: `PLACED→SHIPPED` succeeds and
updates the state; the undeclared `SHIPPED→CANCELLED` fails and the state
remains `SHIPPED`. -/
theorem attempt_atomic_check_then_set_witness :
    orderPolicy.attempt placedV shippedV = (shippedV, none) ∧
    orderPolicy.attempt shippedV cancelledV =
      (shippedV, some ⟨shippedV, cancelledV⟩) :=
  ⟨(attempt_atomic_check_then_set orderPolicy placedV shippedV).2 (by decide),
   (attempt_atomic_check_then_set orderPolicy shippedV cancelledV).1 (by decide)⟩

/-- C2: `isLegal(a, b)` is true exactly when `(a.code, b.code)` is a
declared rule; in particular a self-transition is illegal unless a self-loop
was explicitly declared. -/
theorem isLegal_iff_declared (p : TransitionPolicy) (a b : VariantRec) :
    (p.isLegal a b = true ↔ (a.code, b.code) ∈ p.rules) ∧
    ((a.code, a.code) ∉ p.rules → p.isLegal a a = false) := by
  constructor
  · simp [TransitionPolicy.isLegal]
  · intro h
    simp [TransitionPolicy.isLegal, h]

/-- Witness for C2: `PLACED→SHIPPED` is declared hence legal, and the
undeclared self-loop on `DELIVERED` is illegal. -/
theorem isLegal_iff_declared_witness :
    orderPolicy.isLegal placedV shippedV = true ∧
    orderPolicy.isLegal deliveredV deliveredV = false :=
  ⟨(isLegal_iff_declared orderPolicy placedV shippedV).1.mpr (by decide),
   (isLegal_iff_declared orderPolicy deliveredV deliveredV).2 (by decide)⟩

/-! ## PaymentGateway and checkoutService (src/unnamed/part_005, lines 1-47) -/

/-- The two concrete implementations of the `PaymentGateway` interface. -/
inductive PaymentGateway where
  | StripePayment
  | RazorPayPayment
deriving DecidableEq, Repr

/-- Embedding of each implementation's `initiatePayment(amount)`: the logged
output line. -/
def PaymentGateway.initiatePayment : PaymentGateway → Int → String
  | .StripePayment, amount =>
      "Payment proccessing via Strip : " ++ toString amount ++ " "
  | .RazorPayPayment, amount =>
      "Payment processing via Razorpay : " ++ toString amount

/-- Embedding of the `checkoutService` class state: its single private
`paymentGateway` field, set by the constructor. -/
structure checkoutService where
  paymentGateway : PaymentGateway
deriving DecidableEq, Repr

namespace checkoutService

/-- Embedding of `setPaymentGateway(paymentGateway)`: replaces the field. -/
def setPaymentGateway (_ : checkoutService) (g : PaymentGateway) : checkoutService :=
  checkoutService.mk g

/-- Embedding of `checkout(amount)`: dispatches to the currently bound
gateway. -/
def checkout (s : checkoutService) (amount : Int) : String :=
  s.paymentGateway.initiatePayment amount

end checkoutService

/-- One client call on the checkoutService. -/
inductive CheckoutOp where
  | setPaymentGateway (g : PaymentGateway)
  | checkout (amount : Int)
deriving DecidableEq, Repr

/-- Whether a call sequence contains no rebinding call. -/
def checkoutOnly : List CheckoutOp → Bool
  | [] => true
  | CheckoutOp.setPaymentGateway _ :: _ => false
  | CheckoutOp.checkout _ :: ops => checkoutOnly ops

/-- Run a call sequence against the service, returning the final service
state and the dispatch log: which gateway handled each `checkout`, with the
amount passed. -/
def runCheckout (s : checkoutService) :
    List CheckoutOp → checkoutService × List (PaymentGateway × Int)
  | [] => (s, [])
  | CheckoutOp.setPaymentGateway g :: ops => runCheckout (s.setPaymentGateway g) ops
  | CheckoutOp.checkout a :: ops =>
      let r := runCheckout s ops
      (r.1, (s.paymentGateway, a) :: r.2)

/-- Whether every dispatch in a log was handled by gateway `g`. -/
def dispatchedOnly (g : PaymentGateway) (log : List (PaymentGateway × Int)) : Bool :=
  log.all fun d => d.1 == g

theorem runCheckout_checkoutOnly (s : checkoutService) (ops : List CheckoutOp)
    (h : checkoutOnly ops = true) :
    (runCheckout s ops).1 = s ∧
      dispatchedOnly s.paymentGateway (runCheckout s ops).2 = true := by
  induction ops with
  | nil => simp [runCheckout, dispatchedOnly]
  | cons op ops ih =>
      cases op with
      | setPaymentGateway g => simp [checkoutOnly] at h
      | checkout a =>
          rw [checkoutOnly] at h
          obtain ⟨h1, h2⟩ := ih h
          refine ⟨h1, ?_⟩
          simp only [runCheckout, dispatchedOnly, List.all_cons] at h2 ⊢
          simp [h2]

/-- C3: a checkoutService constructed over gateway X dispatches every
checkout to X until a `setPaymentGateway` call; after rebinding to Y, every
subsequent checkout dispatches to Y.  The service state holds exactly one
active gateway at any time (its single `paymentGateway` field). -/
theorem checkout_resolves_active_gateway (X Y : PaymentGateway)
    (ops post : List CheckoutOp)
    (hops : checkoutOnly ops = true) (hpost : checkoutOnly post = true) :
    dispatchedOnly X (runCheckout (checkoutService.mk X) ops).2 = true ∧
    dispatchedOnly Y (runCheckout
      ((runCheckout (checkoutService.mk X) ops).1.setPaymentGateway Y) post).2 = true := by
  constructor
  · exact (runCheckout_checkoutOnly (checkoutService.mk X) ops hops).2
  · exact (runCheckout_checkoutOnly
      ((runCheckout (checkoutService.mk X) ops).1.setPaymentGateway Y) post hpost).2

/-- Witness for C3 on the source's own usage: checkout 120 on the
Stripe-bound service dispatches to Stripe; after rebinding to RazorPay,
checkout 180 dispatches to RazorPay. -/
theorem checkout_resolves_active_gateway_witness :
    dispatchedOnly .StripePayment
      (runCheckout (checkoutService.mk .StripePayment) [.checkout 120]).2 = true ∧
    dispatchedOnly .RazorPayPayment
      (runCheckout ((runCheckout (checkoutService.mk .StripePayment)
        [.checkout 120]).1.setPaymentGateway .RazorPayPayment) [.checkout 180]).2 = true :=
  checkout_resolves_active_gateway .StripePayment .RazorPayPayment
    [.checkout 120] [.checkout 180] (by decide) (by decide)

/-- C7: rebinding from X to Y does not mutate X or a reference to X resolved
earlier: the earlier reference still is X and its `initiatePayment`
behaviour is unchanged, while the rebound service dispatches to Y.  The last
conjunct replays the source's full scenario: Stripe handles the first
checkout, RazorPay the one after the rebind, and the earlier Stripe
reference still produces Stripe's output. -/
theorem rebind_does_not_mutate_resolved (X Y : PaymentGateway) (a : Int) :
    (checkoutService.mk X).paymentGateway = X ∧
    ((checkoutService.mk X).setPaymentGateway Y).paymentGateway = Y ∧
    ((checkoutService.mk X).setPaymentGateway Y).checkout a = Y.initiatePayment a ∧
    (checkoutService.mk X).paymentGateway.initiatePayment a = X.initiatePayment a ∧
    (runCheckout (checkoutService.mk .StripePayment)
        [.checkout 120, .setPaymentGateway .RazorPayPayment, .checkout 180] =
      (checkoutService.mk .RazorPayPayment,
        [(.StripePayment, 120), (.RazorPayPayment, 180)]) ∧
      PaymentGateway.StripePayment.initiatePayment 120 =
        "Payment proccessing via Strip : 120 ") :=
  ⟨rfl, rfl, rfl, rfl, by decide, rfl⟩

/-! ## MediaPlayer (src/unnamed/part_004, lines 180-311) -/

/-- Observable result of one embedded method call: a logged output line, a
thrown error, or no observable effect at all (an empty method body). -/
inductive Effect where
  | output (msg : String)
  | thrown (msg : String)
  | noEffect
deriving DecidableEq, Repr

/-- Whether an effect is a thrown error. -/
def Effect.isThrown : Effect → Bool
  | .thrown _ => true
  | _ => false

/-- Whether an effect is a logged output line. -/
def Effect.isOutput : Effect → Bool
  | .output _ => true
  | _ => false

/-- Embedding of the private `formatDuration()` shared by both media types:
`${minutes}:${seconds.toString().padStart(2, '0')}` with
`minutes = floor(duration / 60)` and `seconds = duration % 60`. -/
def formatDuration (duration : Nat) : String :=
  toString (duration / 60) ++ ":"
    ++ String.mk (jsPadStart (toString (duration % 60)).toList 2 '0')

/-- The two concrete `MediaFile` subclasses, with the constructor arguments
their `play()` methods read (the `fileSize` argument feeds only `getInfo`,
which is not modelled). -/
inductive MediaFile where
  | AudioFile (filename : String) (artist : String) (duration : Nat)
  | VideoFile (filename : String) (resolution : String) (duration : Nat)
deriving DecidableEq, Repr

/-- Embedding of `play()` of each media type: the logged line. -/
def MediaFile.play : MediaFile → String
  | .AudioFile filename artist duration =>
      "🎵 Playing audio: " ++ filename ++ " by " ++ artist
        ++ " (" ++ formatDuration duration ++ ")"
  | .VideoFile filename resolution duration =>
      "🎬 Playing video: " ++ filename ++ " at " ++ resolution
        ++ " (" ++ formatDuration duration ++ ")"

/-- Embedding of the `MediaPlayer` class state: its `currentMedia` field,
declared as `MediaFile | null = null`. -/
structure MediaPlayer where
  currentMedia : Option MediaFile
deriving DecidableEq, Repr

/-- A freshly constructed player: `currentMedia` is `null`. -/
def MediaPlayer.new : MediaPlayer := ⟨none⟩

/-- Embedding of `playMedia()`: plays the loaded media, and with nothing
loaded logs "No media loaded" — it neither throws nor reports an error. -/
def MediaPlayer.playMedia (p : MediaPlayer) : Effect :=
  match p.currentMedia with
  | some media => .output media.play
  | none => .output "No media loaded"

/-- C4 counterexample: in the source, dispatching `playMedia` on a
never-loaded `MediaPlayer` does not fail: it logs a placeholder line and
silently skips the requested play, contradicting the claim that an unbound
resolution fails and is never silently no-opped. -/
theorem mediaPlayer_unbound_silently_noops :
    MediaPlayer.new.playMedia = Effect.output "No media loaded" ∧
    Effect.isThrown MediaPlayer.new.playMedia = false :=
  ⟨rfl, rfl⟩

/-- Error kind raised by the Binding Registry on resolving a never-bound
contract. -/
structure UnboundContractError where
deriving DecidableEq, Repr

/-- Modelled from the spec: `registry.resolve(contract)` returns the bound
implementation or fails with `UnboundContractError`.  The source has no
Binding Registry; its closest analogues (`MediaPlayer.playMedia`,
`Order.checkout`) guard with a log line or crash on an undefined field
instead of failing with a dedicated error. -/
def resolve {α : Type} (binding : Option α) : Except UnboundContractError α :=
  match binding with
  | some impl => .ok impl
  | none => .error ⟨⟩

/-! ### Order and PaymentMethod (OOPS-Fundamental/inheritance/example.ts, lines 239-337) -/

/-- The three concrete `PaymentMethod` subclasses, with the constructor
arguments their `processPayment()` methods read. -/
inductive PaymentMethod where
  | CreditCardPayment (amount : Int) (cardNumber : List Char) (expiryDate : String) (cvv : String)
  | PayPalPayment (amount : Int) (email : String)
  | BitcoinPayment (amount : Int) (walletAddress : String)
deriving DecidableEq, Repr

/-- Embedding of `processPayment()` of each payment method: the two logged
lines (the credit-card mask reuses `slice(-4).padStart(length, '*')`) and
the returned boolean, which is `true` in every subclass. -/
def PaymentMethod.processPayment : PaymentMethod → List String × Bool
  | .CreditCardPayment amount cardNumber _ _ =>
      (["Processing credit card payment of $" ++ toString amount,
        "Card Number: "
          ++ String.mk (jsPadStart (jsSliceLast4 cardNumber) cardNumber.length '*')], true)
  | .PayPalPayment amount email =>
      (["Processing PayPal payment of $" ++ toString amount,
        "PayPal Account: " ++ email], true)
  | .BitcoinPayment amount walletAddress =>
      (["Processing Bitcoin payment of $" ++ toString amount,
        "Bitcoin Wallet: " ++ walletAddress], true)

/-- The JavaScript `TypeError` raised by reading a method off an undefined
value at runtime. -/
structure JsTypeError where
deriving DecidableEq, Repr

/-- Embedding of the `Order` class state: `orderId`, `items`, and the
`paymentMethod!` field, whose definite-assignment assertion leaves it
`undefined` until `setPaymentMethod` is called. -/
structure Order where
  orderId : String
  items : List String
  paymentMethod : Option PaymentMethod
deriving DecidableEq, Repr

/-- Embedding of the `Order` constructor: it sets `orderId` and `items`
and leaves `paymentMethod` undefined. -/
def Order.new (orderId : String) (items : List String) : Order :=
  ⟨orderId, items, none⟩

/-- Embedding of `setPaymentMethod(paymentMethod)`. -/
def Order.setPaymentMethod (o : Order) (pm : PaymentMethod) : Order :=
  ⟨o.orderId, o.items, some pm⟩

/-- Embedding of `checkout()`: the order header line is logged first; then
`this.paymentMethod.processPayment()` runs — with `paymentMethod` still
undefined that member access crashes with a runtime `TypeError` (there is no
guard), embedded as `JsTypeError`.  Returns the logged lines plus the result
or the crash. -/
def Order.checkout (o : Order) : List String × Except JsTypeError Bool :=
  let headerLog := "Processing order " ++ o.orderId ++ " with "
    ++ toString o.items.length ++ " items"
  match o.paymentMethod with
  | some pm => (headerLog :: pm.processPayment.1, .ok pm.processPayment.2)
  | none => ([headerLog], .error ⟨⟩)

/-- C4 amended: the spec-modelled `resolve` on a never-bound contract fails
with `UnboundContractError` and never returns an implementation; the
repository's own unbound dispatch does not behave this way —
`MediaPlayer.playMedia` with nothing loaded logs "No media loaded" and
silently no-ops, and `Order.checkout` before any `setPaymentMethod` logs the
order header and then crashes with a runtime `TypeError`, not an
`UnboundContractError`. -/
theorem resolve_unbound_fails_loud (α : Type) (orderId : String) (items : List String) :
    resolve (none : Option α) = Except.error ⟨⟩ ∧
    (resolve (none : Option α)).isOk = false ∧
    MediaPlayer.new.playMedia = Effect.output "No media loaded" ∧
    (Order.new orderId items).checkout.2 = Except.error JsTypeError.mk ∧
    (Order.new orderId items).checkout.1 =
      ["Processing order " ++ orderId ++ " with " ++ toString items.length ++ " items"] :=
  ⟨rfl, rfl, rfl, rfl, rfl⟩

/-! ## ISP example players (src/unnamed/part_001, lines 30-162)

The fat `MediaPlayer` interface of the ISP file and its two segregated
interfaces are embedded as operation types; each implementing class becomes
a function from operations to observable effects.  JavaScript `number`
arguments are embedded as `Int`. -/

/-- The operations declared by the fat `MediaPlayer` interface. -/
inductive MediaPlayerOp where
  | playAudio (audioFile : String)
  | stopAudio
  | adjustAudioVolume (volume : Int)
  | playVideo (videoFile : String)
  | stopVideo
  | adjustVideoBrightness (brightness : Int)
  | displaySubtitles (subtitleFile : String)
deriving DecidableEq, Repr

/-- Embedding of `AudioOnlyPlayer implements MediaPlayer`: the audio methods
log, `playVideo`, `adjustVideoBrightness` and `displaySubtitles` throw
`"Not supported."`, and `stopVideo` has an empty body. -/
def AudioOnlyPlayer : MediaPlayerOp → Effect
  | .playAudio audioFile => .output ("Playing audio file: " ++ audioFile)
  | .stopAudio => .output "Audio stopped."
  | .adjustAudioVolume volume => .output ("Audio volume set to: " ++ toString volume)
  | .playVideo _ => .thrown "Not supported."
  | .stopVideo => .noEffect
  | .adjustVideoBrightness _ => .thrown "Not supported."
  | .displaySubtitles _ => .thrown "Not supported."

/-- The operations of the segregated `AudioPlayerControls` interface. -/
inductive AudioPlayerControlsOp where
  | playAudio (audioFile : String)
  | stopAudio
  | adjustAudioVolume (volume : Int)
deriving DecidableEq, Repr

/-- The operations of the segregated `VideoPlayerControls` interface. -/
inductive VideoPlayerControlsOp where
  | playVideo (videoFile : String)
  | stopVideo
  | adjustVideoBrightness (brightness : Int)
  | displaySubtitles (subtitleFile : String)
deriving DecidableEq, Repr

/-- Embedding of `ModernAudioPlayer implements AudioPlayerControls`. -/
def ModernAudioPlayer : AudioPlayerControlsOp → Effect
  | .playAudio audioFile => .output ("ModernAudioPlayer: Playing audio - " ++ audioFile)
  | .stopAudio => .output "ModernAudioPlayer: Audio stopped."
  | .adjustAudioVolume volume =>
      .output ("ModernAudioPlayer: Volume set to " ++ toString volume)

/-- Embedding of `SilentVideoPlayer implements VideoPlayerControls`. -/
def SilentVideoPlayer : VideoPlayerControlsOp → Effect
  | .playVideo videoFile => .output ("SilentVideoPlayer: Playing video - " ++ videoFile)
  | .stopVideo => .output "SilentVideoPlayer: Video stopped."
  | .adjustVideoBrightness brightness =>
      .output ("SilentVideoPlayer: Brightness set to " ++ toString brightness)
  | .displaySubtitles subtitleFile =>
      .output ("SilentVideoPlayer: Subtitles from " ++ subtitleFile)

/-- Embedding of `ComprehensiveMediaPlayer`, which implements both
segregated interfaces, hence every operation of the fat interface. -/
def ComprehensiveMediaPlayer : MediaPlayerOp → Effect
  | .playAudio audioFile =>
      .output ("ComprehensiveMediaPlayer: Playing audio - " ++ audioFile)
  | .stopAudio => .output "ComprehensiveMediaPlayer: Audio stopped."
  | .adjustAudioVolume volume =>
      .output ("ComprehensiveMediaPlayer: Audio volume set to " ++ toString volume)
  | .playVideo videoFile =>
      .output ("ComprehensiveMediaPlayer: Playing video - " ++ videoFile)
  | .stopVideo => .output "ComprehensiveMediaPlayer: Video stopped."
  | .adjustVideoBrightness brightness =>
      .output ("ComprehensiveMediaPlayer: Brightness set to " ++ toString brightness)
  | .displaySubtitles subtitleFile =>
      .output ("ComprehensiveMediaPlayer: Subtitles from " ++ subtitleFile)

/-- C8 counterexample: `AudioOnlyPlayer` declares `implements MediaPlayer`
yet throws an undeclared "Not supported." error on `playVideo` (the
interface declares no failure condition at all) and silently no-ops
`stopVideo`, so the claim fails on the code. -/
theorem audioOnlyPlayer_violates_contract :
    AudioOnlyPlayer (MediaPlayerOp.playVideo "clip.mp4") = Effect.thrown "Not supported." ∧
    AudioOnlyPlayer MediaPlayerOp.stopVideo = Effect.noEffect :=
  ⟨rfl, rfl⟩

/-- C8 amended: every ISP-compliant implementation of the file
(`ModernAudioPlayer`, `SilentVideoPlayer`, `ComprehensiveMediaPlayer`)
performs a logged operation for each declared operation and input — never an
undeclared throw and never a silent no-op; only the ISP-violation
anti-example `AudioOnlyPlayer` throws "Not supported." and no-ops. -/
theorem isp_compliant_implementations_conform :
    (∀ op : AudioPlayerControlsOp, (ModernAudioPlayer op).isOutput = true) ∧
    (∀ op : VideoPlayerControlsOp, (SilentVideoPlayer op).isOutput = true) ∧
    (∀ op : MediaPlayerOp, (ComprehensiveMediaPlayer op).isOutput = true) := by
  refine ⟨?_, ?_, ?_⟩ <;> intro op <;> cases op <;> rfl
